import Mathlib

/-!
Verification of the brighthive mock-data generators.

The repository consists of standalone scripts that build dimension tables,
sample fact rows from parameterized distributions, derive dependent columns
and write CSV files.  This file gives a shallow embedding of the
row-level computations of those scripts and proves (or refutes) the
specification's claims about them.

Random draws made by the scripts (`np.random.randint`, `np.random.uniform`,
`random.randint`, `rng.normal`, ...) are modelled as explicit parameters,
with the range guaranteed by the drawing primitive stated as a hypothesis
(for example `np.random.randint(1, 4)` yields `d` with `1 ≤ d ∧ d < 4`).
Dates are modelled as integers (day numbers); money as rationals.
-/

namespace MockData

/-- Models `np.round(x, 2)` on a rational: round to two decimal places.
(`np.round` breaks exact ties to even; the claims settled here never hit a
tie, so the standard `round` is used.) -/
def round2 (q : ℚ) : ℚ := (round (q * 100) : ℚ) / 100

theorem round2_nonneg {q : ℚ} (h : 0 ≤ q) : 0 ≤ round2 q := by
  unfold round2
  have h100 : (0 : ℚ) ≤ q * 100 := by positivity
  have : (0 : ℤ) ≤ round (q * 100) := by
    rw [round_eq]
    exact Int.floor_nonneg.mpr (by linarith)
  positivity

/-- Models `dict(zip(keys, range(1, len(keys)+1)))[x]`: the id assigned to a
key when ids `1, 2, ...` are zipped against the key column, as the cheese
script does for its `customer_lookup`, `product_lookup`, `location_lookup`
and `salesperson_lookup` dictionaries. -/
def idLookupAux {α : Type} [DecidableEq α] : List α → ℕ → α → Option ℕ
  | [], _, _ => none
  | k :: ks, i, x => if k = x then some i else idLookupAux ks (i + 1) x

def idLookup {α : Type} [DecidableEq α] (keys : List α) (x : α) : Option ℕ :=
  idLookupAux keys 1 x

theorem idLookupAux_mem {α : Type} [DecidableEq α] {keys : List α} {x : α}
    (i : ℕ) (h : x ∈ keys) :
    ∃ j, idLookupAux keys i x = some j ∧ i ≤ j ∧ j < i + keys.length := by
  induction keys generalizing i with
  | nil => cases h
  | cons k ks ih =>
    by_cases hk : k = x
    · exact ⟨i, by simp [idLookupAux, hk], le_refl i, by simp⟩
    · have hx : x ∈ ks := by
        cases h with
        | head => exact absurd rfl hk
        | tail _ h' => exact h'
      obtain ⟨j, hj, hij, hlt⟩ := ih (i + 1) hx
      refine ⟨j, by simp [idLookupAux, hk, hj], by omega, by simp; omega⟩

/-- The id produced by a lookup dictionary for a present key is one of the
ids `1 .. len(keys)` that the corresponding dimension table carries. -/
theorem idLookup_resolves {α : Type} [DecidableEq α] {keys : List α} {x : α}
    (h : x ∈ keys) :
    ∃ j, idLookup keys x = some j ∧ j ∈ List.range' 1 keys.length := by
  obtain ⟨j, hj, hij, hlt⟩ := idLookupAux_mem 1 h
  exact ⟨j, hj, List.mem_range'_1.mpr ⟨hij, by omega⟩⟩

/-! ### Cheese manufacturing generator
(`scripts/generate_cheese_manufacturing_data.py`) -/

/-- One row of the cheese customer master.  `customer_no` keeps the numeric
part of the `CUST{:05d}` code. -/
structure CheeseCustomer where
  customer_no : ℕ
  customer_type : String
  avg_days_to_pay : ℤ
  is_chronic_late_payer : Bool
  deriving DecidableEq, Repr

/-- The `customer_types` configuration: for each type its `count` and
`avg_days_to_pay` (`Distributor` 100 rows / 33 days, `Restaurant` 180 / 38,
`Manufacturer` 70 / 37), flattened in the iteration order of the script's
loop over `customer_types.items()`. -/
def cheeseCustomerSeq : List (String × ℤ) :=
  List.replicate 100 ("Distributor", 33) ++
    List.replicate 180 ("Restaurant", 38) ++
    List.replicate 70 ("Manufacturer", 37)

/-- The customer-master loop.  `lateDraw i` models the `np.random.random()`
value consulted for customer number `i`; a customer is marked
`is_chronic_late_payer` iff it is a `Restaurant`, fewer than 18 customers are
marked so far, and the draw is `< 0.10`.  `id` starts at 1000, `c` is the
running count of marked customers (`len(chronic_late_payers)`). -/
def cheeseCustomersAux (lateDraw : ℕ → ℚ) :
    List (String × ℤ) → ℕ → ℕ → List CheeseCustomer
  | [], _, _ => []
  | (t, pay) :: rest, id, c =>
    { customer_no := id, customer_type := t, avg_days_to_pay := pay,
      is_chronic_late_payer :=
        decide (t = "Restaurant" ∧ c < 18 ∧ lateDraw id < 1 / 10) } ::
      cheeseCustomersAux lateDraw rest (id + 1)
        (if t = "Restaurant" ∧ c < 18 ∧ lateDraw id < 1 / 10 then c + 1 else c)

/-- The cheese customer master for the default configuration
(100 + 180 + 70 = 350 customers, numbered from 1000). -/
def cheeseCustomers (lateDraw : ℕ → ℚ) : List CheeseCustomer :=
  cheeseCustomersAux lateDraw cheeseCustomerSeq 1000 0

/-- The timestamp columns of one cheese order row, as derived by the script:
each stage adds a drawn offset to the previous stage's date, and only
`payment_date` is nulled (with `order_status` set to `Shipped`) when it lies
in the future. -/
structure CheeseOrderRow where
  order_date : ℤ
  production_start_date : ℤ
  production_end_date : ℤ
  shipment_date : ℤ
  invoice_date : ℤ
  payment_raw : ℤ
  payment_date : Option ℤ
  order_status : String
  deriving DecidableEq, Repr

/-- Derivation of a cheese order's timestamp chain (source lines 269-308).
`startDraw` is `np.random.randint(0, 2)` for rush orders else
`np.random.randint(1, 4)`; `prodDays` is the category's production days plus
any seasonal addition (a nonnegative rational, truncated by `int(...)`,
i.e. `⌊·⌋` on nonnegative input); `shipDraw` is `np.random.randint(1, 4)`;
`invDraw` is `np.random.randint(0, 2)`; for a chronic late payer the payment
offset is `avg_days_to_pay + np.random.randint(10, 21)`, otherwise
`max(15, min(int(np.random.normal(expected, 5)), 90))`. -/
def cheeseOrderRow (order_date : ℤ) (is_late : Bool) (expected : ℤ)
    (startDraw : ℤ) (prodDays : ℚ) (shipDraw invDraw overdueDraw normalDraw : ℤ)
    (now : ℤ) : CheeseOrderRow :=
  let ps := order_date + startDraw
  let pe := ps + ⌊prodDays⌋
  let sh := pe + shipDraw
  let inv := sh + invDraw
  let payDays := if is_late then expected + overdueDraw
    else max 15 (min normalDraw 90)
  let pay := inv + payDays
  { order_date := order_date, production_start_date := ps,
    production_end_date := pe, shipment_date := sh, invoice_date := inv,
    payment_raw := pay,
    payment_date := if pay > now then none else some pay,
    order_status := if pay > now then "Shipped" else "Completed" }

/-- Cheese order quantity: `max(5, int(base * year_mult * cat_mult * tier_mult))`
with `base = np.random.randint(20, 200)`. -/
def cheeseQuantity (baseQ : ℕ) (yearMult catMult tierMult : ℚ) : ℤ :=
  max 5 ⌊(baseQ : ℚ) * yearMult * catMult * tierMult⌋

/-- Cheese `line_amount_usd = round(quantity * unit_price * (1 - discount/100), 2)`. -/
def cheeseLineAmount (qty : ℤ) (unitPrice discPct : ℚ) : ℚ :=
  round2 ((qty : ℚ) * unitPrice * (1 - discPct / 100))

/-- The loop's future-date guard: a candidate order date is skipped
(`continue`) iff it is strictly greater than `datetime.now()`; the emitted
order dates are the candidates that survive. -/
def cheeseEmittedDates (cands : List ℤ) (now : ℤ) : List ℤ :=
  cands.filter (fun d => decide (d ≤ now))

/-- The sampled keys carried by one cheese order before the fact table is
assembled (customer number, generated item number, facility code index,
salesperson number). -/
structure CheeseOrderKeys where
  customer_no : ℕ
  item_no : ℕ
  location_code : ℕ
  salesperson_code : ℕ
  deriving DecidableEq, Repr

/-- The four facility codes (`BCM-01` .. `BCM-04`), kept as numbers. -/
def cheeseFacilityCodes : List ℕ := [1, 2, 3, 4]

/-- The product dimension keys: the orders' distinct `item_no` values
(`drop_duplicates(subset=['item_no'])`). -/
def cheeseProductKeys (orders : List CheeseOrderKeys) : List ℕ :=
  (orders.map (·.item_no)).dedup

/-- The salespeople dimension ids: `salesperson_id = int(code.replace('SP',''))`
for each distinct salesperson code appearing in the orders. -/
def cheeseSalespersonIds (orders : List CheeseOrderKeys) : List ℕ :=
  (orders.map (·.salesperson_code)).dedup

/-- The foreign keys of one fact row, looked up through the zip dictionaries
of source lines 460-472. -/
structure CheeseFactFKs where
  customer_id : Option ℕ
  product_id : Option ℕ
  location_id : Option ℕ
  salesperson_id : Option ℕ
  deriving DecidableEq, Repr

def cheeseFactRow (customerNos : List ℕ) (orders : List CheeseOrderKeys)
    (o : CheeseOrderKeys) : CheeseFactFKs :=
  { customer_id := idLookup customerNos o.customer_no,
    product_id := idLookup (cheeseProductKeys orders) o.item_no,
    location_id := idLookup cheeseFacilityCodes o.location_code,
    salesperson_id := some o.salesperson_code }

/-! ### Food distribution generator
(`scripts/generate_food_distribution_data.py`) -/

/-- The whale flag column before shuffling: `[1 if i < 5 else 0 for i in
range(num_customers)]` (the script then applies `np.random.shuffle`, modelled
as an arbitrary permutation of this list). -/
def foodWhaleFlags (numCustomers : ℕ) : List ℕ :=
  (List.range numCustomers).map (fun i => if i < 5 then 1 else 0)

/-- The raw customer-selection weights of `create_sales`:
`3.0 if row['whale_customer'] else 1.0` per customer. -/
def foodRawWeights (flags : List ℕ) : List ℚ :=
  flags.map (fun f => if f = 1 then 3 else 1)

/-- The script's explicit renormalization
`customer_weights = np.array(customer_weights) / sum(customer_weights)`. -/
def normalizeWeights (ws : List ℚ) : List ℚ :=
  ws.map (fun w => w / ws.sum)

/-- Food sale quantity: `max(1, int(base * quantity_multiplier))` with
`base = np.random.randint(5, 50)`. -/
def foodQuantity (baseQ : ℕ) (mult : ℚ) : ℤ :=
  max 1 ⌊(baseQ : ℚ) * mult⌋

/-- Food `unit_price`: `round(unit_cost * markup [* segment adjustment], 2)`. -/
def foodUnitPrice (unitCost markup segAdj : ℚ) : ℚ :=
  round2 (unitCost * markup * segAdj)

/-- Food `sales_revenue = round(quantity * unit_price * (1 - discount_rate), 2)`. -/
def foodRevenue (qty : ℤ) (price disc : ℚ) : ℚ :=
  round2 ((qty : ℚ) * price * (1 - disc))

/-- Food `cogs = round(quantity * unit_cost, 2)`. -/
def foodCogs (qty : ℤ) (unitCost : ℚ) : ℚ :=
  round2 ((qty : ℚ) * unitCost)

/-- Food `freight_cost = round(base_freight * regional multiplier, 2)` with
`base_freight = np.random.uniform(15, 75)`. -/
def foodFreight (baseFreight regionMult : ℚ) : ℚ :=
  round2 (baseFreight * regionMult)

/-- Food `gross_margin = round(sales_revenue - cogs - freight_cost, 2)`. -/
def foodGrossMargin (rev cogs freight : ℚ) : ℚ :=
  round2 (rev - cogs - freight)

/-- A food customer row (id plus whale flag); sales draw `customer_id`
directly from this table's `customer_id` column. -/
structure FoodCustomer where
  customer_id : ℕ
  whale_customer : ℕ
  deriving DecidableEq, Repr

/-- A food sale's foreign keys are the ids of the sampled dimension rows
(`np.random.choice(customers['customer_id'], ...)` and
`products.sample(...)`). -/
structure FoodSaleFKs where
  customer_id : ℕ
  product_id : ℕ
  deriving DecidableEq, Repr

def foodSaleRow (c : FoodCustomer) (productId : ℕ) : FoodSaleFKs :=
  { customer_id := c.customer_id, product_id := productId }

/-! ### Deal (HubSpot) generator (`scripts/generate_deal_fact_data.py`) -/

/-- The seven pipeline stages, in index order. -/
def dealStages : List String :=
  ["appointmentscheduled", "qualifiedtobuy", "presentationscheduled",
   "decisionmakerboughtin", "contractsent", "closedwon", "closedlost"]

/-- The derived per-deal stage-timestamp chain (source lines 276-290):
`appointment = create + rng.integers(0, 3)` and each later stage adds
`max(0, int(rng.normal(..)))` days; a stage's date is emitted only when the
sampled stage index has reached it. -/
structure DealStageDates where
  create_date : ℤ
  appointment_scheduled : Option ℤ
  qualified_to_buy : Option ℤ
  presentation_scheduled : Option ℤ
  decision_maker_bought_in : Option ℤ
  contract_sent : Option ℤ
  deriving DecidableEq, Repr

def dealStageDatesRow (create : ℤ) (stageIdx : ℕ)
    (apptDraw a2q q2p p2d d2c : ℤ) : DealStageDates :=
  let appt := create + apptDraw
  let qual := appt + max 0 a2q
  let pres := qual + max 0 q2p
  let dec := pres + max 0 p2d
  let contract := dec + max 0 d2c
  { create_date := create,
    appointment_scheduled := if 0 ≤ stageIdx then some appt else none,
    qualified_to_buy := if 1 ≤ stageIdx then some qual else none,
    presentation_scheduled := if 2 ≤ stageIdx then some pres else none,
    decision_maker_bought_in := if 3 ≤ stageIdx then some dec else none,
    contract_sent := if 4 ≤ stageIdx then some contract else none }

/-- The closed-status columns of one deal (source lines 250-273 and
355-364): `is_closed = stage_idx >= 5`, `is_won = stage_idx == 5`; a closed
deal gets `days_to_close = max(1, int(rng.normal(45, 20)))` and
`close_date = create_date + days_to_close`, an open deal gets nulls. -/
structure DealClosedFields where
  deal_stage : String
  is_deal_closed : Bool
  is_closed_won : Bool
  close_date : Option ℤ
  days_to_close : Option ℤ
  deriving DecidableEq, Repr

def dealClosedRow (create : ℤ) (stageIdx : ℕ) (dtcDraw : ℤ) :
    DealClosedFields :=
  let isClosed : Bool := 5 ≤ stageIdx
  let dtc := max 1 dtcDraw
  { deal_stage := dealStages.getD stageIdx "",
    is_deal_closed := isClosed,
    is_closed_won := stageIdx = 5,
    close_date := if isClosed then some (create + dtc) else none,
    days_to_close := if isClosed then some dtc else none }

/-! ### Date filters of the deal and HVAC scripts
(`df = df[pd.to_datetime(df['date']) < pd.to_datetime('today')]`): rows
dated on or after today's midnight are dropped after generation. -/

def filterBeforeToday (dates : List ℤ) (todayMidnight : ℤ) : List ℤ :=
  dates.filter (fun d => decide (d < todayMidnight))

/-! ### Healthtech generator (`scripts/generate_healthtech_data.py`) -/

/-- The clinical-trials id column: 300 rows, each with
`trial_id = f'CT{random.randint(1,50):03d}'` (`random.randint` is inclusive
on both ends, so each draw lies in `[1, 50]`).  Kept as the drawn number. -/
def healthtechTrialIds (draw : ℕ → ℕ) : List ℕ :=
  (List.range 300).map (fun i => draw i)

/-- The patients id column: `patient_id = f'PAT{i+1:05d}'` for
`i in range(500)`, kept as the number `i + 1`. -/
def healthtechPatientIds : List ℕ :=
  (List.range 500).map (fun i => i + 1)

/-! ### Insurance generator (`scripts/generate_insurance_data.py`) -/

/-- The base policyholder id pool:
`[f'PH{np.random.randint(10000, 99999)}' for _ in range(int(num_records*0.7))]`.
The script never seeds `np.random`, so the draw stream is whatever ambient
state the process PRNG happens to have; the pool is a function of that
stream.  Kept as the drawn numbers. -/
def insurancePolicyholderIds (numRecords : ℕ) (draw : ℕ → ℕ) : List ℕ :=
  (List.range (numRecords * 7 / 10)).map (fun i => draw i)

/-- The property-claims id column:
`[f'CLM{np.random.randint(100000, 999999)}' for _ in range(num_records)]`. -/
def insuranceClaimIds (numRecords : ℕ) (draw : ℕ → ℕ) : List ℕ :=
  (List.range numRecords).map (fun i => draw i)

/-! ## Claims -/

theorem cheeseProductKeys_mem {orders : List CheeseOrderKeys}
    {o : CheeseOrderKeys} (ho : o ∈ orders) :
    o.item_no ∈ cheeseProductKeys orders := by
  unfold cheeseProductKeys
  exact List.mem_dedup.mpr (List.mem_map_of_mem _ ho)

theorem cheeseSalespersonIds_mem {orders : List CheeseOrderKeys}
    {o : CheeseOrderKeys} (ho : o ∈ orders) :
    o.salesperson_code ∈ cheeseSalespersonIds orders := by
  unfold cheeseSalespersonIds
  exact List.mem_dedup.mpr (List.mem_map_of_mem _ ho)

/-- C1: every foreign key on an emitted fact row references an identifier
that exists in the corresponding dimension table.  For a cheese order whose
sampled customer number, facility code and salesperson code come from the
respective master lists (as the sampling guarantees), the fact row's
`customer_id`, `product_id`, `location_id` and `salesperson_id` each resolve
to an id present in the customers, products, locations and salespeople
tables; a food-distribution sale built from a sampled customer row and a
sampled product id carries foreign keys present in the customer and product
tables. -/
theorem C1_referential_integrity
    (customerNos : List ℕ) (orders : List CheeseOrderKeys)
    (o : CheeseOrderKeys) (ho : o ∈ orders)
    (hc : o.customer_no ∈ customerNos)
    (hl : o.location_code ∈ cheeseFacilityCodes)
    (foodCustomers : List FoodCustomer) (foodProductIds : List ℕ)
    (c : FoodCustomer) (hcf : c ∈ foodCustomers)
    (pid : ℕ) (hpf : pid ∈ foodProductIds) :
    (∃ j, (cheeseFactRow customerNos orders o).customer_id = some j ∧
      j ∈ List.range' 1 customerNos.length) ∧
    (∃ j, (cheeseFactRow customerNos orders o).product_id = some j ∧
      j ∈ List.range' 1 (cheeseProductKeys orders).length) ∧
    (∃ j, (cheeseFactRow customerNos orders o).location_id = some j ∧
      j ∈ List.range' 1 cheeseFacilityCodes.length) ∧
    (∃ j, (cheeseFactRow customerNos orders o).salesperson_id = some j ∧
      j ∈ cheeseSalespersonIds orders) ∧
    (foodSaleRow c pid).customer_id ∈ foodCustomers.map (·.customer_id) ∧
    (foodSaleRow c pid).product_id ∈ foodProductIds := by
  refine ⟨?_, ?_, ?_, ?_, ?_, ?_⟩
  · exact idLookup_resolves hc
  · exact idLookup_resolves (cheeseProductKeys_mem ho)
  · exact idLookup_resolves hl
  · exact ⟨o.salesperson_code, rfl, cheeseSalespersonIds_mem ho⟩
  · exact List.mem_map_of_mem _ hcf
  · exact hpf

/-- Witness for C1 at a concrete one-order instance. -/
theorem C1_referential_integrity_witness :
    (∃ j, (cheeseFactRow [1000] [⟨1000, 7, 1, 120⟩] ⟨1000, 7, 1, 120⟩).customer_id
        = some j ∧ j ∈ List.range' 1 ([1000] : List ℕ).length) ∧
    (∃ j, (cheeseFactRow [1000] [⟨1000, 7, 1, 120⟩] ⟨1000, 7, 1, 120⟩).product_id
        = some j ∧
      j ∈ List.range' 1 (cheeseProductKeys [⟨1000, 7, 1, 120⟩]).length) ∧
    (∃ j, (cheeseFactRow [1000] [⟨1000, 7, 1, 120⟩] ⟨1000, 7, 1, 120⟩).location_id
        = some j ∧ j ∈ List.range' 1 cheeseFacilityCodes.length) ∧
    (∃ j, (cheeseFactRow [1000] [⟨1000, 7, 1, 120⟩] ⟨1000, 7, 1, 120⟩).salesperson_id
        = some j ∧ j ∈ cheeseSalespersonIds [⟨1000, 7, 1, 120⟩]) ∧
    (foodSaleRow ⟨1, 1⟩ 5).customer_id
      ∈ ([⟨1, 1⟩] : List FoodCustomer).map (·.customer_id) ∧
    (foodSaleRow ⟨1, 1⟩ 5).product_id ∈ ([5] : List ℕ) :=
  C1_referential_integrity [1000] [⟨1000, 7, 1, 120⟩] ⟨1000, 7, 1, 120⟩
    (by decide) (by decide) (by decide) [⟨1, 1⟩] [5] ⟨1, 1⟩ (by decide) 5
    (by decide)

/-- C3: derived timestamps are monotonically non-decreasing along the
dependency chain.  For a cheese order (offsets drawn by `randint(0,2)` or
`randint(1,4)` for the production start, a nonnegative production duration,
`randint(1,4)` for shipment, `randint(0,2)` for invoice, and a payment
offset that is `avg_days_to_pay + randint(10,21)` for late payers or clamped
to `[15, 90]` otherwise) the chain
order ≤ production_start ≤ production_end ≤ shipment ≤ invoice ≤ payment
holds whenever the payment date is populated; for a deal, whenever the stage
timestamps are populated,
create ≤ appointment ≤ qualified ≤ presentation ≤ decision ≤ contract. -/
theorem C3_timestamp_monotonicity
    (order_date : ℤ) (is_late : Bool) (expected : ℤ) (startDraw : ℤ)
    (prodDays : ℚ) (shipDraw invDraw overdueDraw normalDraw now : ℤ)
    (hstart : 0 ≤ startDraw) (hprod : 0 ≤ prodDays) (hship : 1 ≤ shipDraw)
    (hinv : 0 ≤ invDraw) (hover : 10 ≤ overdueDraw) (hexp : 0 ≤ expected)
    (create : ℤ) (stageIdx : ℕ) (apptDraw a2q q2p p2d d2c : ℤ)
    (happt : 0 ≤ apptDraw) :
    ((cheeseOrderRow order_date is_late expected startDraw prodDays shipDraw
        invDraw overdueDraw normalDraw now).order_date ≤
      (cheeseOrderRow order_date is_late expected startDraw prodDays shipDraw
        invDraw overdueDraw normalDraw now).production_start_date ∧
     (cheeseOrderRow order_date is_late expected startDraw prodDays shipDraw
        invDraw overdueDraw normalDraw now).production_start_date ≤
      (cheeseOrderRow order_date is_late expected startDraw prodDays shipDraw
        invDraw overdueDraw normalDraw now).production_end_date ∧
     (cheeseOrderRow order_date is_late expected startDraw prodDays shipDraw
        invDraw overdueDraw normalDraw now).production_end_date ≤
      (cheeseOrderRow order_date is_late expected startDraw prodDays shipDraw
        invDraw overdueDraw normalDraw now).shipment_date ∧
     (cheeseOrderRow order_date is_late expected startDraw prodDays shipDraw
        invDraw overdueDraw normalDraw now).shipment_date ≤
      (cheeseOrderRow order_date is_late expected startDraw prodDays shipDraw
        invDraw overdueDraw normalDraw now).invoice_date ∧
     (∀ p, (cheeseOrderRow order_date is_late expected startDraw prodDays
        shipDraw invDraw overdueDraw normalDraw now).payment_date = some p →
       (cheeseOrderRow order_date is_late expected startDraw prodDays shipDraw
         invDraw overdueDraw normalDraw now).invoice_date ≤ p)) ∧
    (∀ a q pr de co,
      (dealStageDatesRow create stageIdx apptDraw a2q q2p p2d d2c).appointment_scheduled
        = some a →
      (dealStageDatesRow create stageIdx apptDraw a2q q2p p2d d2c).qualified_to_buy
        = some q →
      (dealStageDatesRow create stageIdx apptDraw a2q q2p p2d d2c).presentation_scheduled
        = some pr →
      (dealStageDatesRow create stageIdx apptDraw a2q q2p p2d d2c).decision_maker_bought_in
        = some de →
      (dealStageDatesRow create stageIdx apptDraw a2q q2p p2d d2c).contract_sent
        = some co →
      create ≤ a ∧ a ≤ q ∧ q ≤ pr ∧ pr ≤ de ∧ de ≤ co) := by
  have hfloor : (0 : ℤ) ≤ ⌊prodDays⌋ := Int.floor_nonneg.mpr hprod
  constructor
  · refine ⟨?_, ?_, ?_, ?_, ?_⟩
    · simp only [cheeseOrderRow]; omega
    · simp only [cheeseOrderRow]; omega
    · simp only [cheeseOrderRow]; omega
    · simp only [cheeseOrderRow]; omega
    · intro p hp
      simp only [cheeseOrderRow] at hp ⊢
      split at hp
      · split at hp
        · exact absurd hp (by simp)
        · have := Option.some.inj hp; omega
      · split at hp
        · exact absurd hp (by simp)
        · have := Option.some.inj hp; omega
  · intro a q pr de co ha hq hpr hde hco
    simp only [dealStageDatesRow] at ha hq hpr hde hco
    split at ha
    · have ha' := Option.some.inj ha
      split at hq
      · have hq' := Option.some.inj hq
        split at hpr
        · have hpr' := Option.some.inj hpr
          split at hde
          · have hde' := Option.some.inj hde
            split at hco
            · have hco' := Option.some.inj hco
              subst ha' hq' hpr' hde' hco'
              refine ⟨by omega, ?_, ?_, ?_, ?_⟩ <;>
                simp only [add_le_add_iff_left, le_add_iff_nonneg_right] <;>
                  positivity
            · exact absurd hco (by simp)
          · exact absurd hde (by simp)
        · exact absurd hpr (by simp)
      · exact absurd hq (by simp)
    · exact absurd ha (by simp)

/-- Witness for C3 at concrete draws (a non-late order; a deal at stage 6). -/
theorem C3_timestamp_monotonicity_witness :
    ((cheeseOrderRow 0 false 38 1 2 1 0 10 15 100).order_date ≤
      (cheeseOrderRow 0 false 38 1 2 1 0 10 15 100).production_start_date ∧
     (cheeseOrderRow 0 false 38 1 2 1 0 10 15 100).production_start_date ≤
      (cheeseOrderRow 0 false 38 1 2 1 0 10 15 100).production_end_date ∧
     (cheeseOrderRow 0 false 38 1 2 1 0 10 15 100).production_end_date ≤
      (cheeseOrderRow 0 false 38 1 2 1 0 10 15 100).shipment_date ∧
     (cheeseOrderRow 0 false 38 1 2 1 0 10 15 100).shipment_date ≤
      (cheeseOrderRow 0 false 38 1 2 1 0 10 15 100).invoice_date ∧
     (∀ p, (cheeseOrderRow 0 false 38 1 2 1 0 10 15 100).payment_date = some p →
       (cheeseOrderRow 0 false 38 1 2 1 0 10 15 100).invoice_date ≤ p)) ∧
    (∀ a q pr de co,
      (dealStageDatesRow 0 6 1 3 7 10 5).appointment_scheduled = some a →
      (dealStageDatesRow 0 6 1 3 7 10 5).qualified_to_buy = some q →
      (dealStageDatesRow 0 6 1 3 7 10 5).presentation_scheduled = some pr →
      (dealStageDatesRow 0 6 1 3 7 10 5).decision_maker_bought_in = some de →
      (dealStageDatesRow 0 6 1 3 7 10 5).contract_sent = some co →
      (0 : ℤ) ≤ a ∧ a ≤ q ∧ q ≤ pr ∧ pr ≤ de ∧ de ≤ co) :=
  C3_timestamp_monotonicity 0 false 38 1 2 1 0 10 15 100 (by norm_num)
    (by norm_num) (by norm_num) (by norm_num) (by norm_num) (by norm_num)
    0 6 1 3 7 10 5 (by norm_num)

/-- C7: candidate fact rows whose primary date exceeds the generation time
are dropped without retry: every emitted cheese order date is ≤ `now`, every
emitted HVAC/deal row date is ≤ `now` (being strictly before today's
midnight, which is ≤ `now`), a candidate dated after `now` never appears in
the output, the emitted count never exceeds the candidate count, and there
are inputs on which it is strictly smaller. -/
theorem C7_future_rows_dropped (cands : List ℤ) (now : ℤ) (rows : List ℤ)
    (todayMidnight : ℤ) (hnow : todayMidnight ≤ now) :
    (∀ d ∈ cheeseEmittedDates cands now, d ≤ now) ∧
    (∀ d ∈ cands, now < d → d ∉ cheeseEmittedDates cands now) ∧
    (cheeseEmittedDates cands now).length ≤ cands.length ∧
    (∀ d ∈ filterBeforeToday rows todayMidnight, d ≤ now) ∧
    (∀ d ∈ rows, now < d → d ∉ filterBeforeToday rows todayMidnight) ∧
    (filterBeforeToday rows todayMidnight).length ≤ rows.length ∧
    ∃ cands2 now2, (cheeseEmittedDates cands2 now2).length < cands2.length := by
  refine ⟨?_, ?_, ?_, ?_, ?_, ?_, [1], 0, by decide⟩
  · intro d hd
    unfold cheeseEmittedDates at hd
    exact of_decide_eq_true (List.mem_filter.mp hd).2
  · intro d _ hlt hmem
    unfold cheeseEmittedDates at hmem
    have := of_decide_eq_true (List.mem_filter.mp hmem).2
    omega
  · unfold cheeseEmittedDates
    exact List.length_filter_le _ _
  · intro d hd
    unfold filterBeforeToday at hd
    have := of_decide_eq_true (List.mem_filter.mp hd).2
    omega
  · intro d _ hlt hmem
    unfold filterBeforeToday at hmem
    have := of_decide_eq_true (List.mem_filter.mp hmem).2
    omega
  · unfold filterBeforeToday
    exact List.length_filter_le _ _

/-- Witness for C7 at a concrete instance. -/
theorem C7_future_rows_dropped_witness :
    (∀ d ∈ cheeseEmittedDates [3, 9] 5, d ≤ 5) ∧
    (∀ d ∈ ([3, 9] : List ℤ), 5 < d → d ∉ cheeseEmittedDates [3, 9] 5) ∧
    (cheeseEmittedDates [3, 9] 5).length ≤ ([3, 9] : List ℤ).length ∧
    (∀ d ∈ filterBeforeToday [3, 9] 4, d ≤ 5) ∧
    (∀ d ∈ ([3, 9] : List ℤ), 5 < d → d ∉ filterBeforeToday [3, 9] 4) ∧
    (filterBeforeToday [3, 9] 4).length ≤ ([3, 9] : List ℤ).length ∧
    ∃ cands2 now2, (cheeseEmittedDates cands2 now2).length < cands2.length :=
  C7_future_rows_dropped [3, 9] 5 [3, 9] 4 (by norm_num)

/-- C10: a deal's `is_deal_closed` flag is true exactly when its stage is
`closedwon` or `closedlost`, `is_closed_won` is true exactly when the stage
is `closedwon`; a closed deal carries
`close_date = create_date + days_to_close` with `days_to_close ≥ 1`, and an
open deal carries null `close_date` and null `days_to_close`. -/
theorem C10_deal_closed_consistency (create : ℤ) (stageIdx : ℕ)
    (dtcDraw : ℤ) (h : stageIdx < 7) :
    ((dealClosedRow create stageIdx dtcDraw).is_deal_closed = true ↔
      (dealClosedRow create stageIdx dtcDraw).deal_stage = "closedwon" ∨
      (dealClosedRow create stageIdx dtcDraw).deal_stage = "closedlost") ∧
    ((dealClosedRow create stageIdx dtcDraw).is_closed_won = true ↔
      (dealClosedRow create stageIdx dtcDraw).deal_stage = "closedwon") ∧
    ((dealClosedRow create stageIdx dtcDraw).is_deal_closed = true →
      ∃ d, (dealClosedRow create stageIdx dtcDraw).days_to_close = some d ∧
        (dealClosedRow create stageIdx dtcDraw).close_date = some (create + d) ∧
        1 ≤ d) ∧
    ((dealClosedRow create stageIdx dtcDraw).is_deal_closed = false →
      (dealClosedRow create stageIdx dtcDraw).close_date = none ∧
      (dealClosedRow create stageIdx dtcDraw).days_to_close = none) := by
  interval_cases stageIdx <;> simp [dealClosedRow, dealStages]

/-- Witness for C10: a closed-won deal (stage index 5). -/
theorem C10_deal_closed_consistency_witness :
    ((dealClosedRow 10 5 40).is_deal_closed = true ↔
      (dealClosedRow 10 5 40).deal_stage = "closedwon" ∨
      (dealClosedRow 10 5 40).deal_stage = "closedlost") ∧
    ((dealClosedRow 10 5 40).is_closed_won = true ↔
      (dealClosedRow 10 5 40).deal_stage = "closedwon") ∧
    ((dealClosedRow 10 5 40).is_deal_closed = true →
      ∃ d, (dealClosedRow 10 5 40).days_to_close = some d ∧
        (dealClosedRow 10 5 40).close_date = some (10 + d) ∧ 1 ≤ d) ∧
    ((dealClosedRow 10 5 40).is_deal_closed = false →
      (dealClosedRow 10 5 40).close_date = none ∧
      (dealClosedRow 10 5 40).days_to_close = none) :=
  C10_deal_closed_consistency 10 5 40 (by norm_num)

theorem cheeseCustomersAux_count_le (draw : ℕ → ℚ)
    (seq : List (String × ℤ)) :
    ∀ id c, c ≤ 18 →
      (cheeseCustomersAux draw seq id c).countP (·.is_chronic_late_payer) + c
        ≤ 18 := by
  induction seq with
  | nil => intro id c hc; simpa [cheeseCustomersAux] using hc
  | cons hd rest ih =>
    intro id c hc
    obtain ⟨t, pay⟩ := hd
    by_cases hl : (t = "Restaurant" ∧ c < 18 ∧ draw id < 1 / 10)
    · have hrec := ih (id + 1) (c + 1) (by omega)
      simp only [cheeseCustomersAux, List.countP_cons, if_pos hl,
        decide_eq_true hl, if_true]
      omega
    · have hrec := ih (id + 1) c hc
      simp only [cheeseCustomersAux, List.countP_cons, if_neg hl,
        decide_eq_false hl, Bool.false_eq_true, if_false]
      omega

theorem cheeseCustomersAux_count_zero (draw : ℕ → ℚ)
    (h : ∀ i, ¬ draw i < 1 / 10) (seq : List (String × ℤ)) :
    ∀ id c,
      (cheeseCustomersAux draw seq id c).countP (·.is_chronic_late_payer)
        = 0 := by
  induction seq with
  | nil => intro id c; simp [cheeseCustomersAux]
  | cons hd rest ih =>
    intro id c
    obtain ⟨t, pay⟩ := hd
    have hl : ¬ (t = "Restaurant" ∧ c < 18 ∧ draw id < 1 / 10) := by
      intro hcon; exact h id hcon.2.2
    simp only [cheeseCustomersAux, List.countP_cons, if_neg hl,
      decide_eq_false hl, Bool.false_eq_true, if_false]
    simp [ih]

/-- Counterexample to C4: the cheese chronic-late-payer marking is not a
without-replacement selection of exactly 18 rows.  It is a per-restaurant
10% Bernoulli draw capped at 18, so with a draw stream in which every
`np.random.random()` value is `1/2` (≥ 0.10) the default 350-customer master
marks 0 customers — not 18. -/
theorem C4_counterexample :
    (cheeseCustomers (fun _ => 1 / 2)).countP (·.is_chronic_late_payer) = 0 ∧
    (0 : ℕ) ≠ 18 := by
  refine ⟨?_, by norm_num⟩
  unfold cheeseCustomers
  exact cheeseCustomersAux_count_zero _ (by norm_num) _ _ _

theorem foodWhaleFlags_split (m : ℕ) :
    foodWhaleFlags (5 + m) = List.replicate 5 1 ++ List.replicate m 0 := by
  unfold foodWhaleFlags
  rw [List.range_add, List.map_append, List.map_map]
  have h1 : (List.range 5).map (fun i => if i < 5 then (1 : ℕ) else 0)
      = List.replicate 5 1 := by decide
  have h2 : (List.range m).map
      ((fun i => if i < 5 then (1 : ℕ) else 0) ∘ (fun x => 5 + x))
      = List.replicate m 0 := by
    have hz : ∀ x ∈ List.range m,
        ((fun i => if i < 5 then (1 : ℕ) else 0) ∘ (fun x => 5 + x)) x
          = (fun _ => (0 : ℕ)) x := by
      intro x _
      simp [Function.comp]
    rw [List.map_congr_left hz, List.map_const', List.length_range]
  rw [h1, h2]

/-- C4 as amended: the food-distribution customer master marks exactly 5
customers as whales whenever the pool has at least 5 customers (the flag
column is five 1s and zeroes, shuffled — shuffling is a permutation, which
preserves the count); the cheese master marks at most 18 chronic late
payers via capped per-restaurant Bernoulli draws, and may mark fewer. -/
theorem C4_amended_flag_counts (m : ℕ) (flags : List ℕ)
    (hperm : flags.Perm (foodWhaleFlags (5 + m))) (draw : ℕ → ℚ) :
    flags.count 1 = 5 ∧
    (cheeseCustomers draw).countP (·.is_chronic_late_payer) ≤ 18 := by
  constructor
  · rw [hperm.count_eq, foodWhaleFlags_split, List.count_append,
      List.count_replicate_self]
    have : (List.replicate m 0).count 1 = 0 := by
      rw [List.count_eq_zero]
      intro hmem
      exact absurd (List.eq_of_mem_replicate hmem) one_ne_zero
    omega
  · have := cheeseCustomersAux_count_le draw cheeseCustomerSeq 1000 0
      (by norm_num)
    unfold cheeseCustomers
    omega

/-- Witness for the amended C4 at the identity shuffle of a 5-customer pool
and the all-zero draw stream. -/
theorem C4_amended_flag_counts_witness :
    (foodWhaleFlags 5).count 1 = 5 ∧
    (cheeseCustomers (fun _ => 0)).countP (·.is_chronic_late_payer) ≤ 18 :=
  C4_amended_flag_counts 0 (foodWhaleFlags 5) (List.Perm.refl _) (fun _ => 0)

/-- Counterexample to C5: the food-distribution `gross_margin` can be
negative.  A 2024 Disposables order from a standard Pizzeria customer with
`base_quantity = 5` (low end of `randint(5, 50)`), decline multiplier `0.85`
(low end of `uniform(0.85, 0.95)`), `unit_cost = 0.50` (low end of the
Disposables range), markup `1.3` (low end of `uniform(1.3, 2.0)`), no
discount, `base_freight = 15` and home-market freight multiplier `0.7`
yields revenue 2.60, cogs 2.00 and freight 10.50, hence
`gross_margin = -9.90 < 0`. -/
theorem C5_counterexample :
    foodGrossMargin
      (foodRevenue (foodQuantity 5 (17 / 20))
        (foodUnitPrice (1 / 2) (13 / 10) 1) 0)
      (foodCogs (foodQuantity 5 (17 / 20)) (1 / 2))
      (foodFreight 15 (7 / 10)) < 0 := by
  norm_num [foodGrossMargin, foodRevenue, foodCogs, foodFreight,
    foodQuantity, foodUnitPrice, round2, round_eq]

/-- C5 as amended: quantities are clamped to their configured floors at the
point of computation (cheese order quantity ≥ 5, food quantity ≥ 1), and
the monetary fields `line_amount_usd`, `unit_price`, `sales_revenue`,
`cogs` and `freight_cost` are ≥ 0 for draws in the configured ranges — but
`gross_margin = sales_revenue - cogs - freight_cost` is not clamped and can
be negative. -/
theorem C5_amended_monetary_floors (baseQc : ℕ) (ym cm tm : ℚ)
    (hym : 0 ≤ ym) (hcm : 0 ≤ cm) (htm : 0 ≤ tm) (unitPriceC discC : ℚ)
    (hup : 0 ≤ unitPriceC) (hd0 : 0 ≤ discC) (hd1 : discC ≤ 100)
    (baseQf : ℕ) (multf : ℚ) (cost markup seg disc bf rm : ℚ)
    (hcost : 0 ≤ cost) (hmk : 0 ≤ markup) (hseg : 0 ≤ seg)
    (hdisc0 : 0 ≤ disc) (hdisc1 : disc ≤ 1) (hbf : 0 ≤ bf) (hrm : 0 ≤ rm) :
    5 ≤ cheeseQuantity baseQc ym cm tm ∧
    0 ≤ cheeseLineAmount (cheeseQuantity baseQc ym cm tm) unitPriceC discC ∧
    1 ≤ foodQuantity baseQf multf ∧
    0 ≤ foodUnitPrice cost markup seg ∧
    0 ≤ foodRevenue (foodQuantity baseQf multf)
        (foodUnitPrice cost markup seg) disc ∧
    0 ≤ foodCogs (foodQuantity baseQf multf) cost ∧
    0 ≤ foodFreight bf rm := by
  have hqc : 5 ≤ cheeseQuantity baseQc ym cm tm := le_max_left _ _
  have hqf : 1 ≤ foodQuantity baseQf multf := le_max_left _ _
  have hqcQ : (0 : ℚ) ≤ (cheeseQuantity baseQc ym cm tm : ℚ) := by
    exact_mod_cast le_trans (by norm_num) hqc
  have hqfQ : (0 : ℚ) ≤ (foodQuantity baseQf multf : ℚ) := by
    exact_mod_cast le_trans (by norm_num) hqf
  have hupf : 0 ≤ foodUnitPrice cost markup seg :=
    round2_nonneg (by positivity)
  refine ⟨hqc, ?_, hqf, hupf, ?_, ?_, ?_⟩
  · exact round2_nonneg (by
      have : 0 ≤ 1 - discC / 100 := by linarith
      positivity)
  · exact round2_nonneg (by
      have : 0 ≤ 1 - disc := by linarith
      positivity)
  · exact round2_nonneg (by positivity)
  · exact round2_nonneg (by positivity)

/-- Witness for the amended C5 at concrete in-range draws. -/
theorem C5_amended_monetary_floors_witness :
    5 ≤ cheeseQuantity 20 1 1 1 ∧
    0 ≤ cheeseLineAmount (cheeseQuantity 20 1 1 1) 6 10 ∧
    1 ≤ foodQuantity 5 1 ∧
    0 ≤ foodUnitPrice 2 (3 / 2) 1 ∧
    0 ≤ foodRevenue (foodQuantity 5 1) (foodUnitPrice 2 (3 / 2) 1)
        (1 / 10) ∧
    0 ≤ foodCogs (foodQuantity 5 1) 2 ∧
    0 ≤ foodFreight 20 1 :=
  C5_amended_monetary_floors 20 1 1 1 (by norm_num) (by norm_num)
    (by norm_num) 6 10 (by norm_num) (by norm_num) (by norm_num) 5 1 2
    (3 / 2) 1 (1 / 10) 20 1 (by norm_num) (by norm_num) (by norm_num)
    (by norm_num) (by norm_num) (by norm_num) (by norm_num)

theorem sum_map_div (ws : List ℚ) (s : ℚ) :
    (ws.map (fun w => w / s)).sum = ws.sum / s := by
  induction ws with
  | nil => simp
  | cons a l ih => simp [ih, add_div]

theorem foodRawWeights_sum (m : ℕ) :
    (foodRawWeights (foodWhaleFlags (5 + m))).sum = 15 + m := by
  rw [foodWhaleFlags_split]
  unfold foodRawWeights
  rw [List.map_append, List.map_replicate, List.map_replicate,
    List.sum_append, List.sum_replicate, List.sum_replicate]
  norm_num [nsmul_eq_mul]

/-- Counterexample to C6: the whale-biased customer-selection weights of the
food-distribution `create_sales` do not sum to 1 as configured (for the
default 750-customer pool with 5 whales the raw weights
`3.0 if whale else 1.0` sum to 760), yet the run does not fail: the script
silently renormalizes them (`customer_weights / sum(customer_weights)`)
into a vector summing to 1 and proceeds to draw. -/
theorem C6_counterexample :
    (foodRawWeights (foodWhaleFlags 750)).sum = 760 ∧
    ((760 : ℚ) ≠ 1) ∧
    (normalizeWeights (foodRawWeights (foodWhaleFlags 750))).sum = 1 := by
  have h := foodRawWeights_sum 745
  norm_num at h
  refine ⟨h, by norm_num, ?_⟩
  unfold normalizeWeights
  rw [sum_map_div, h]
  norm_num

theorem foodRawWeights_sum_pos (flags : List ℕ) (h : flags ≠ []) :
    0 < (foodRawWeights flags).sum := by
  obtain ⟨a, l, rfl⟩ := List.exists_cons_of_ne_nil h
  unfold foodRawWeights
  simp only [List.map_cons, List.sum_cons]
  have ha : (0 : ℚ) < if a = 1 then 3 else 1 := by split <;> norm_num
  have hl : 0 ≤ (l.map (fun f => if f = 1 then (3 : ℚ) else 1)).sum := by
    apply List.sum_nonneg
    intro x hx
    obtain ⟨f, _, rfl⟩ := List.mem_map.mp hx
    split <;> norm_num
  linarith

/-- C6 as amended: no weight vector is validated against `sum == 1` before
generation and no configuration error is raised; the biased
customer-selection weights are renormalized at draw time (the food script
divides by their sum, the cheese script's `pandas.sample` normalizes
internally), and it is only the renormalized vector handed to the sampler
that sums to 1 (its raw sum being positive, hence nonzero, for any
nonempty customer pool). -/
theorem C6_amended_renormalization (flags : List ℕ) (h : flags ≠ []) :
    (foodRawWeights flags).sum ≠ 0 ∧
    (normalizeWeights (foodRawWeights flags)).sum = 1 := by
  have hpos := foodRawWeights_sum_pos flags h
  refine ⟨ne_of_gt hpos, ?_⟩
  unfold normalizeWeights
  rw [sum_map_div, div_self (ne_of_gt hpos)]

/-- Witness for the amended C6 at a one-customer pool. -/
theorem C6_amended_renormalization_witness :
    (foodRawWeights [0]).sum ≠ 0 ∧
    (normalizeWeights (foodRawWeights [0])).sum = 1 :=
  C6_amended_renormalization [0] (by decide)

/-- Counterexample to C8: the "leave future derived timestamps unset" rule
is not applied to every timestamp in the cheese chain — only to the last
one.  At generation time `now = 0`, an order dated `0` (kept, since it does
not exceed `now`) with start offset 1, production duration 2 days, shipment
offset 1, invoice offset 0 and payment offset 15 carries populated
`production_start_date = 1 > now` and `shipment_date = 4 > now`, while only
`payment_date` (19 > now) is nulled. -/
theorem C8_counterexample :
    (cheeseOrderRow 0 false 38 1 2 1 0 10 15 0).order_date ≤ 0 ∧
    0 < (cheeseOrderRow 0 false 38 1 2 1 0 10 15 0).production_start_date ∧
    0 < (cheeseOrderRow 0 false 38 1 2 1 0 10 15 0).shipment_date ∧
    (cheeseOrderRow 0 false 38 1 2 1 0 10 15 0).payment_date = none ∧
    (cheeseOrderRow 0 false 38 1 2 1 0 10 15 0).order_status = "Shipped" := by
  norm_num [cheeseOrderRow]

/-- C8 as amended: in the cheese orders table only the final derived
timestamp, `payment_date`, is left unset when it lies in the future (with
`order_status` then `Shipped` instead of `Completed`); the intermediate
derived timestamps (`production_start_date`, `production_end_date`,
`shipment_date`, `invoice_date`) are always populated, independently of the
generation time. -/
theorem C8_amended_payment_gating (order_date : ℤ) (is_late : Bool)
    (expected startDraw : ℤ) (prodDays : ℚ)
    (shipDraw invDraw overdueDraw normalDraw now now2 : ℤ) :
    ((cheeseOrderRow order_date is_late expected startDraw prodDays shipDraw
        invDraw overdueDraw normalDraw now).payment_raw > now →
      (cheeseOrderRow order_date is_late expected startDraw prodDays shipDraw
        invDraw overdueDraw normalDraw now).payment_date = none ∧
      (cheeseOrderRow order_date is_late expected startDraw prodDays shipDraw
        invDraw overdueDraw normalDraw now).order_status = "Shipped") ∧
    ((cheeseOrderRow order_date is_late expected startDraw prodDays shipDraw
        invDraw overdueDraw normalDraw now).payment_raw ≤ now →
      (cheeseOrderRow order_date is_late expected startDraw prodDays shipDraw
        invDraw overdueDraw normalDraw now).payment_date =
        some ((cheeseOrderRow order_date is_late expected startDraw prodDays
          shipDraw invDraw overdueDraw normalDraw now).payment_raw) ∧
      (cheeseOrderRow order_date is_late expected startDraw prodDays shipDraw
        invDraw overdueDraw normalDraw now).order_status = "Completed") ∧
    (cheeseOrderRow order_date is_late expected startDraw prodDays shipDraw
        invDraw overdueDraw normalDraw now).production_start_date =
      (cheeseOrderRow order_date is_late expected startDraw prodDays shipDraw
        invDraw overdueDraw normalDraw now2).production_start_date ∧
    (cheeseOrderRow order_date is_late expected startDraw prodDays shipDraw
        invDraw overdueDraw normalDraw now).production_end_date =
      (cheeseOrderRow order_date is_late expected startDraw prodDays shipDraw
        invDraw overdueDraw normalDraw now2).production_end_date ∧
    (cheeseOrderRow order_date is_late expected startDraw prodDays shipDraw
        invDraw overdueDraw normalDraw now).shipment_date =
      (cheeseOrderRow order_date is_late expected startDraw prodDays shipDraw
        invDraw overdueDraw normalDraw now2).shipment_date ∧
    (cheeseOrderRow order_date is_late expected startDraw prodDays shipDraw
        invDraw overdueDraw normalDraw now).invoice_date =
      (cheeseOrderRow order_date is_late expected startDraw prodDays shipDraw
        invDraw overdueDraw normalDraw now2).invoice_date := by
  refine ⟨?_, ?_, rfl, rfl, rfl, rfl⟩
  · intro hgt
    simp only [cheeseOrderRow] at hgt ⊢
    rw [if_pos hgt, if_pos hgt]
    exact ⟨rfl, rfl⟩
  · intro hle
    simp only [cheeseOrderRow] at hle ⊢
    rw [if_neg (not_lt.mpr hle), if_neg (not_lt.mpr hle)]
    exact ⟨rfl, rfl⟩

/-- Witness for the amended C8 at concrete draws (`now = 0`, `now2 = 5`). -/
theorem C8_amended_payment_gating_witness :
    ((cheeseOrderRow 0 false 38 1 2 1 0 10 15 0).payment_raw > 0 →
      (cheeseOrderRow 0 false 38 1 2 1 0 10 15 0).payment_date = none ∧
      (cheeseOrderRow 0 false 38 1 2 1 0 10 15 0).order_status = "Shipped") ∧
    ((cheeseOrderRow 0 false 38 1 2 1 0 10 15 0).payment_raw ≤ 0 →
      (cheeseOrderRow 0 false 38 1 2 1 0 10 15 0).payment_date =
        some ((cheeseOrderRow 0 false 38 1 2 1 0 10 15 0).payment_raw) ∧
      (cheeseOrderRow 0 false 38 1 2 1 0 10 15 0).order_status
        = "Completed") ∧
    (cheeseOrderRow 0 false 38 1 2 1 0 10 15 0).production_start_date =
      (cheeseOrderRow 0 false 38 1 2 1 0 10 15 5).production_start_date ∧
    (cheeseOrderRow 0 false 38 1 2 1 0 10 15 0).production_end_date =
      (cheeseOrderRow 0 false 38 1 2 1 0 10 15 5).production_end_date ∧
    (cheeseOrderRow 0 false 38 1 2 1 0 10 15 0).shipment_date =
      (cheeseOrderRow 0 false 38 1 2 1 0 10 15 5).shipment_date ∧
    (cheeseOrderRow 0 false 38 1 2 1 0 10 15 0).invoice_date =
      (cheeseOrderRow 0 false 38 1 2 1 0 10 15 5).invoice_date :=
  C8_amended_payment_gating 0 false 38 1 2 1 0 10 15 0 5

/-- Counterexample to C2: runs are not byte-identical.  The insurance
script never seeds `np.random`, so its policyholder pool is a function of
the ambient PRNG state — two ambient draw streams (here the constant
streams 10000 and 10001, both inside the `randint(10000, 99999)` range)
give different pools.  Moreover, even the seeded cheese generator's output
depends on the wall-clock generation time: the same candidate order (dated
day 100) is dropped when generated at time 50 and emitted when generated at
time 200. -/
theorem C2_counterexample :
    insurancePolicyholderIds 500 (fun _ => 10000) ≠
      insurancePolicyholderIds 500 (fun _ => 10001) ∧
    cheeseEmittedDates [100] 50 = [] ∧
    cheeseEmittedDates [100] 200 = [100] := by
  refine ⟨?_, by decide, by decide⟩
  unfold insurancePolicyholderIds
  rw [List.map_const', List.map_const', List.length_range]
  intro h
  have := List.eq_of_mem_replicate
    (h ▸ List.mem_replicate.mpr ⟨by norm_num, rfl⟩)
  norm_num at this

/-- C2 as amended: the output is deterministic only once both the draw
stream and the generation time are fixed.  The unseeded insurance pool is
determined by the ambient stream's first `int(num_records * 0.7)` draws,
and a cheese order date is emitted exactly when it is a candidate and does
not exceed the generation time — so reruns coincide only for equal streams
and equal generation times. -/
theorem C2_amended_determinism_inputs (num : ℕ) (s₁ s₂ : ℕ → ℕ)
    (h : ∀ i < num * 7 / 10, s₁ i = s₂ i) (cands : List ℤ) (now d : ℤ) :
    insurancePolicyholderIds num s₁ = insurancePolicyholderIds num s₂ ∧
    (d ∈ cheeseEmittedDates cands now ↔ d ∈ cands ∧ d ≤ now) := by
  constructor
  · unfold insurancePolicyholderIds
    exact List.map_congr_left (fun i hi => h i (List.mem_range.mp hi))
  · unfold cheeseEmittedDates
    rw [List.mem_filter, decide_eq_true_eq]

/-- Witness for the amended C2 at identical streams and a concrete
candidate list. -/
theorem C2_amended_determinism_inputs_witness :
    insurancePolicyholderIds 10 (fun i => i) =
      insurancePolicyholderIds 10 (fun i => i) ∧
    ((0 : ℤ) ∈ cheeseEmittedDates [0] 0 ↔ (0 : ℤ) ∈ ([0] : List ℤ) ∧
      (0 : ℤ) ≤ 0) :=
  C2_amended_determinism_inputs 10 (fun i => i) (fun i => i)
    (fun _ _ => rfl) [0] 0 0

/-- Pigeonhole fact about the healthtech clinical-trials ids: 300 rows each
draw `trial_id` from the 50 values `CT001 .. CT050`, so the column always
contains a duplicate, whatever the draw stream. -/
theorem healthtechTrialIds_not_nodup (draw : ℕ → ℕ)
    (h : ∀ i, 1 ≤ draw i ∧ draw i ≤ 50) :
    ¬ (healthtechTrialIds draw).Nodup := by
  intro hnd
  have hlen : (healthtechTrialIds draw).length = 300 := by
    simp [healthtechTrialIds]
  have hsub : (healthtechTrialIds draw).toFinset ⊆ Finset.Icc 1 50 := by
    intro x hx
    rw [List.mem_toFinset] at hx
    obtain ⟨i, _, rfl⟩ := List.mem_map.mp hx
    exact Finset.mem_Icc.mpr (h i)
  have hcard : (healthtechTrialIds draw).toFinset.card = 300 := by
    rw [List.toFinset_card_of_nodup hnd, hlen]
  have := Finset.card_le_card hsub
  rw [hcard, Nat.card_Icc] at this
  omega

/-- Counterexample to C9: identifier columns built by random draws with
replacement are not pairwise distinct.  The healthtech `trial_id` column
(300 draws from `CT001 .. CT050`) necessarily repeats — exhibited at the
in-range constant draw stream 1 — and the insurance policyholder pool
(`PH` plus `randint(10000, 99999)`, never deduplicated) repeats at the
in-range constant stream 10000. -/
theorem C9_counterexample :
    ¬ (healthtechTrialIds (fun _ => 1)).Nodup ∧
    ¬ (insurancePolicyholderIds 500 (fun _ => 10000)).Nodup := by
  constructor
  · exact healthtechTrialIds_not_nodup (fun _ => 1)
      (fun _ => ⟨le_refl 1, by norm_num⟩)
  · unfold insurancePolicyholderIds
    rw [List.map_const', List.length_range, List.nodup_replicate]
    norm_num

/-- C9 as amended: sequentially assigned identifier columns are pairwise
distinct — the healthtech `patient_id` column `PAT00001 .. PAT00500` has no
duplicates — but the healthtech `trial_id` column (300 draws with
replacement from 50 values) always contains duplicates, and the randomly
drawn insurance policyholder ids are likewise not guaranteed distinct. -/
theorem C9_amended_id_uniqueness (draw : ℕ → ℕ)
    (h : ∀ i, 1 ≤ draw i ∧ draw i ≤ 50) :
    healthtechPatientIds.Nodup ∧ ¬ (healthtechTrialIds draw).Nodup := by
  constructor
  · unfold healthtechPatientIds
    exact (List.nodup_range 500).map (fun a b => by omega)
  · exact healthtechTrialIds_not_nodup draw h

/-- Witness for the amended C9 at the constant in-range draw stream 7. -/
theorem C9_amended_id_uniqueness_witness :
    healthtechPatientIds.Nodup ∧
    ¬ (healthtechTrialIds (fun _ => 7)).Nodup :=
  C9_amended_id_uniqueness (fun _ => 7)
    (fun _ => ⟨by norm_num, by norm_num⟩)

end MockData
